import Mathlib

/-!
Shallow embedding of the `SupplyChainProvenance` contract
(src/contracts/SupplyChainProvenance.sol) and of the history reconstructor
(src/api/src/services/productService.js, `getProductHistory`).

Addresses are modelled as naturals (0 is the zero address).  Solidity
mappings are total functions returning a zero-initialised default, exactly
as EVM storage behaves.  Every external mutating function is translated as
a straight-line function threading the state, with `require`-style guards
in the order the modifiers and body checks appear in the source; a failed
guard returns the state unchanged with no emitted facts, a success returns
the mutated state together with the events emitted by that call.
-/

namespace SupplyChain

/-- Participant identity: opaque comparable key (an address).  0 is the
zero address. -/
abbrev Address := Nat

/-- The roles declared by the contract: the four supply-chain roles and
OpenZeppelin's `DEFAULT_ADMIN_ROLE`. -/
inductive Role where
  | PRODUCER
  | DISTRIBUTOR
  | RETAILER
  | REGULATOR
  | ADMIN
  deriving DecidableEq, Repr

/-- `enum ProductStatus` from the interface (numbered 0..6 as in the
source). -/
inductive ProductStatus where
  | Created
  | Dispatched
  | InTransit
  | Received
  | Delivered
  | Verified
  | Exception
  deriving DecidableEq, Repr

/-- `struct Product` from the interface.  A default (all-zero) value has
`productId = 0`, which is how the contract encodes "no product stored at
this key". -/
structure Product where
  productId : Nat
  name : String
  batchId : String
  currentOwner : Address
  origin : String
  productionDate : Nat
  status : ProductStatus
  createdAt : Nat
  lastUpdatedBlock : Nat
  deriving DecidableEq, Repr

/-- The zero-initialised `Product` an EVM mapping returns at an unset key. -/
def emptyProduct : Product :=
  { productId := 0, name := "", batchId := "", currentOwner := 0, origin := ""
    productionDate := 0, status := ProductStatus.Created, createdAt := 0
    lastUpdatedBlock := 0 }

/-- `struct Verification` from the interface. -/
structure Verification where
  verifier : Address
  timestamp : Nat
  certificateHash : String
  notes : String
  deriving DecidableEq, Repr

/-- Error kinds of the spec's taxonomy, plus `NotPaused` for unpausing an
unpaused contract (OpenZeppelin `ExpectedPause`). -/
inductive LedgerError where
  | Unauthorized
  | NotFound
  | EmptyField
  | FutureDate
  | InvalidIdentity
  | SelfTransfer
  | IneligibleRecipient
  | SystemPaused
  | NotPaused
  deriving DecidableEq, Repr

/-- The events emitted by the contract's own source (one constructor per
`event` declaration used by a mutating function). -/
inductive Fact where
  | ProductCreated (productId : Nat) (producer : Address)
      (name batchId origin : String) (timestamp : Nat)
  | OwnershipTransferred (productId : Nat) (prevOwner newOwner : Address)
      (timestamp : Nat) (metadata : String)
  | StatusUpdated (productId : Nat) (updatedBy : Address)
      (oldStatus newStatus : ProductStatus) (timestamp : Nat) (note : String)
  | ProductVerified (productId : Nat) (verifier : Address)
      (certificateHash : String) (timestamp : Nat) (notes : String)
  | RoleGrantedToParticipant (role : Role) (account grantor : Address)
  deriving DecidableEq, Repr

/-- Per-call blockchain environment: `block.timestamp` and `block.number`. -/
structure Env where
  timestamp : Nat
  blockNumber : Nat
  deriving DecidableEq, Repr

/-- Contract storage. -/
structure ChainState where
  productIdCounter : Nat
  products : Nat → Product
  verifications : Nat → List Verification
  registeredParticipants : Address → Bool
  roles : Role → Address → Bool
  paused : Bool

/-- Result of one external call: outcome, post-call storage and the events
emitted by the call.  A reverted call leaves storage unchanged and emits
nothing; in this contract every guard precedes every write, so the state
returned at a failed guard is the entry state. -/
structure OpResult (α : Type) where
  res : Except LedgerError α
  state : ChainState
  facts : List Fact

/-- `hasRole` lookup. -/
def hasRole (s : ChainState) (r : Role) (a : Address) : Bool :=
  s.roles r a

/-- Storage state right after the constructor ran with `msg.sender =
deployer`: deployer holds `DEFAULT_ADMIN_ROLE`, counter is 0, everything
else is zero-initialised. -/
def initState (deployer : Address) : ChainState :=
  { productIdCounter := 0
    products := fun _ => emptyProduct
    verifications := fun _ => []
    registeredParticipants := fun _ => false
    roles := fun r a => decide (r = Role.ADMIN ∧ a = deployer)
    paused := false }

/-- `grantSupplyChainRole(role, account)`: admin-only, rejects the zero
address, idempotently grants the role, registers the participant, emits
`RoleGrantedToParticipant`.  NOTE: the source has no `whenNotPaused`
modifier on this function. -/
def grantSupplyChainRole (s : ChainState) (caller : Address)
    (role : Role) (account : Address) : OpResult Unit :=
  if hasRole s Role.ADMIN caller = false then
    ⟨Except.error LedgerError.Unauthorized, s, []⟩
  else if account = 0 then
    ⟨Except.error LedgerError.InvalidIdentity, s, []⟩
  else
    let s' := { s with
      roles := fun r a => if r = role ∧ a = account then true else s.roles r a
      registeredParticipants := fun a =>
        if a = account then true else s.registeredParticipants a }
    ⟨Except.ok (), s', [Fact.RoleGrantedToParticipant role account caller]⟩

/-- `registerProduct(name, batchId, origin, productionDate)`.  Guard order
follows the source: `onlyRole(PRODUCER_ROLE)`, `whenNotPaused`,
`nonEmptyString(name)`, then the body's future-date `require`. -/
def registerProduct (s : ChainState) (env : Env) (caller : Address)
    (name batchId origin : String) (productionDate : Nat) : OpResult Nat :=
  if hasRole s Role.PRODUCER caller = false then
    ⟨Except.error LedgerError.Unauthorized, s, []⟩
  else if s.paused then
    ⟨Except.error LedgerError.SystemPaused, s, []⟩
  else if name = "" then
    ⟨Except.error LedgerError.EmptyField, s, []⟩
  else if env.timestamp < productionDate then
    ⟨Except.error LedgerError.FutureDate, s, []⟩
  else
    let pid := s.productIdCounter + 1
    let p : Product :=
      { productId := pid, name := name, batchId := batchId
        currentOwner := caller, origin := origin
        productionDate := productionDate, status := ProductStatus.Created
        createdAt := env.timestamp, lastUpdatedBlock := env.blockNumber }
    let s' := { s with
      productIdCounter := pid
      products := fun i => if i = pid then p else s.products i }
    ⟨Except.ok pid, s',
      [Fact.ProductCreated pid caller name batchId origin env.timestamp]⟩

/-- The recipient-role `require` of `transferProduct`: the new owner must
hold `DISTRIBUTOR_ROLE`, `RETAILER_ROLE` or `PRODUCER_ROLE`. -/
def eligibleRecipient (s : ChainState) (a : Address) : Bool :=
  hasRole s Role.DISTRIBUTOR a || hasRole s Role.RETAILER a ||
  hasRole s Role.PRODUCER a

/-- `transferProduct(productId, newOwner, metadata)`.  Guard order follows
the source: `productMustExist`, `onlyProductOwner`, `validAddress`,
`whenNotPaused`, then the body's recipient-role and self-transfer
`require`s. -/
def transferProduct (s : ChainState) (env : Env) (caller : Address)
    (productId : Nat) (newOwner : Address) (metadata : String) :
    OpResult Unit :=
  if (s.products productId).productId = 0 then
    ⟨Except.error LedgerError.NotFound, s, []⟩
  else if (s.products productId).currentOwner ≠ caller then
    ⟨Except.error LedgerError.Unauthorized, s, []⟩
  else if newOwner = 0 then
    ⟨Except.error LedgerError.InvalidIdentity, s, []⟩
  else if s.paused then
    ⟨Except.error LedgerError.SystemPaused, s, []⟩
  else if eligibleRecipient s newOwner = false then
    ⟨Except.error LedgerError.IneligibleRecipient, s, []⟩
  else if newOwner = caller then
    ⟨Except.error LedgerError.SelfTransfer, s, []⟩
  else
    let previousOwner := (s.products productId).currentOwner
    let s' := { s with
      products := fun i =>
        if i = productId then
          { s.products productId with
              currentOwner := newOwner, lastUpdatedBlock := env.blockNumber }
        else s.products i }
    ⟨Except.ok (), s',
      [Fact.OwnershipTransferred productId previousOwner newOwner
        env.timestamp metadata]⟩

/-- `_validateStatusUpdatePermission` as a predicate: which roles may set
which target status.  Translation of the source's if-chain; every enum
value is covered by exactly one branch. -/
def statusUpdatePermitted (s : ChainState) (updater : Address)
    (newStatus : ProductStatus) : Bool :=
  match newStatus with
  | ProductStatus.Exception =>
      hasRole s Role.PRODUCER updater || hasRole s Role.DISTRIBUTOR updater ||
      hasRole s Role.RETAILER updater || hasRole s Role.REGULATOR updater
  | ProductStatus.Created => hasRole s Role.PRODUCER updater
  | ProductStatus.Dispatched => hasRole s Role.PRODUCER updater
  | ProductStatus.InTransit =>
      hasRole s Role.DISTRIBUTOR updater || hasRole s Role.PRODUCER updater
  | ProductStatus.Received =>
      hasRole s Role.RETAILER updater || hasRole s Role.DISTRIBUTOR updater
  | ProductStatus.Delivered =>
      hasRole s Role.RETAILER updater || hasRole s Role.DISTRIBUTOR updater
  | ProductStatus.Verified => hasRole s Role.REGULATOR updater

/-- `updateProductStatus(productId, newStatus, notes)`.  Guard order:
`productMustExist`, `whenNotPaused`, `_validateStatusUpdatePermission`. -/
def updateProductStatus (s : ChainState) (env : Env) (caller : Address)
    (productId : Nat) (newStatus : ProductStatus) (notes : String) :
    OpResult Unit :=
  if (s.products productId).productId = 0 then
    ⟨Except.error LedgerError.NotFound, s, []⟩
  else if s.paused then
    ⟨Except.error LedgerError.SystemPaused, s, []⟩
  else if statusUpdatePermitted s caller newStatus = false then
    ⟨Except.error LedgerError.Unauthorized, s, []⟩
  else
    let oldStatus := (s.products productId).status
    let s' := { s with
      products := fun i =>
        if i = productId then
          { s.products productId with
              status := newStatus, lastUpdatedBlock := env.blockNumber }
        else s.products i }
    ⟨Except.ok (), s',
      [Fact.StatusUpdated productId caller oldStatus newStatus
        env.timestamp notes]⟩

/-- `addVerification(productId, certificateHash, notes)`.  Guard order:
`onlyRole(REGULATOR_ROLE)`, `productMustExist`,
`nonEmptyString(certificateHash)`, `whenNotPaused`. -/
def addVerification (s : ChainState) (env : Env) (caller : Address)
    (productId : Nat) (certificateHash notes : String) : OpResult Unit :=
  if hasRole s Role.REGULATOR caller = false then
    ⟨Except.error LedgerError.Unauthorized, s, []⟩
  else if (s.products productId).productId = 0 then
    ⟨Except.error LedgerError.NotFound, s, []⟩
  else if certificateHash = "" then
    ⟨Except.error LedgerError.EmptyField, s, []⟩
  else if s.paused then
    ⟨Except.error LedgerError.SystemPaused, s, []⟩
  else
    let v : Verification :=
      { verifier := caller, timestamp := env.timestamp
        certificateHash := certificateHash, notes := notes }
    let s' := { s with
      verifications := fun i =>
        if i = productId then s.verifications productId ++ [v]
        else s.verifications i
      products := fun i =>
        if i = productId then
          { s.products productId with
              status := ProductStatus.Verified
              lastUpdatedBlock := env.blockNumber }
        else s.products i }
    ⟨Except.ok (), s',
      [Fact.ProductVerified productId caller certificateHash
        env.timestamp notes]⟩

/-- `pause()`: admin-only; OpenZeppelin `_pause` reverts when already
paused. -/
def pauseOp (s : ChainState) (caller : Address) : OpResult Unit :=
  if hasRole s Role.ADMIN caller = false then
    ⟨Except.error LedgerError.Unauthorized, s, []⟩
  else if s.paused then
    ⟨Except.error LedgerError.SystemPaused, s, []⟩
  else
    ⟨Except.ok (), { s with paused := true }, []⟩

/-- `unpause()`: admin-only; OpenZeppelin `_unpause` reverts when not
paused. -/
def unpauseOp (s : ChainState) (caller : Address) : OpResult Unit :=
  if hasRole s Role.ADMIN caller = false then
    ⟨Except.error LedgerError.Unauthorized, s, []⟩
  else if s.paused = false then
    ⟨Except.error LedgerError.NotPaused, s, []⟩
  else
    ⟨Except.ok (), { s with paused := false }, []⟩

/-- `productExists(productId)` view. -/
def productExists (s : ChainState) (productId : Nat) : Bool :=
  (s.products productId).productId ≠ 0

/-- `getTotalProducts()` view. -/
def getTotalProducts (s : ChainState) : Nat :=
  s.productIdCounter

/-- `getProduct(productId)` view (reverts `NotFound` on a missing id). -/
def getProduct (s : ChainState) (productId : Nat) :
    Except LedgerError Product :=
  if (s.products productId).productId = 0 then
    Except.error LedgerError.NotFound
  else Except.ok (s.products productId)

/-- `getProductVerifications(productId)` view. -/
def getProductVerifications (s : ChainState) (productId : Nat) :
    Except LedgerError (List Verification) :=
  if (s.products productId).productId = 0 then
    Except.error LedgerError.NotFound
  else Except.ok (s.verifications productId)

/-- `getProductOwner(productId)` view. -/
def getProductOwner (s : ChainState) (productId : Nat) :
    Except LedgerError Address :=
  if (s.products productId).productId = 0 then
    Except.error LedgerError.NotFound
  else Except.ok (s.products productId).currentOwner

/-!
### History reconstructor

`getProductHistory` in src/api/src/services/productService.js queries the
four event types filtered by product id, concatenates them grouped by
type, sorts by `(blockNumber, logIndex)` and formats each event into a
timeline entry, fetching the block timestamp of each event's block.
-/

/-- Payload of one indexed chain log entry, one constructor per event
type the reconstructor queries. -/
inductive EvPayload where
  | createdEv (producer : Address) (name batchId origin : String)
  | transferEv (prevOwner newOwner : Address)
  | statusEv (newStatus : ProductStatus) (note : String) (updatedBy : Address)
  | verifiedEv (verifier : Address) (certificationHash notes : String)
  deriving DecidableEq, Repr

/-- One entry of the chain's event log: position in the log's total order
(`blockNumber` primary, `logIndex` secondary) plus the indexed product id
and the event payload. -/
structure ChainLogEvent where
  productId : Nat
  blockNumber : Nat
  logIndex : Nat
  payload : EvPayload
  deriving DecidableEq, Repr

def isCreatedEv (e : ChainLogEvent) : Bool :=
  match e.payload with | EvPayload.createdEv .. => true | _ => false

def isTransferEv (e : ChainLogEvent) : Bool :=
  match e.payload with | EvPayload.transferEv .. => true | _ => false

def isStatusEv (e : ChainLogEvent) : Bool :=
  match e.payload with | EvPayload.statusEv .. => true | _ => false

def isVerifiedEv (e : ChainLogEvent) : Bool :=
  match e.payload with | EvPayload.verifiedEv .. => true | _ => false

/-- The concatenation `createdEvents ++ transferEvents ++ statusEvents ++
verifiedEvents` of the four per-type `queryFilter` results for one
product id, in the order the source concatenates them. -/
def productEvents (log : List ChainLogEvent) (pid : Nat) :
    List ChainLogEvent :=
  log.filter (fun e => isCreatedEv e && e.productId == pid) ++
  log.filter (fun e => isTransferEv e && e.productId == pid) ++
  log.filter (fun e => isStatusEv e && e.productId == pid) ++
  log.filter (fun e => isVerifiedEv e && e.productId == pid)

/-- The comparator of the source's `.sort`: block number first, log index
second. -/
def evLE (a b : ChainLogEvent) : Prop :=
  a.blockNumber < b.blockNumber ∨
  (a.blockNumber = b.blockNumber ∧ a.logIndex ≤ b.logIndex)

instance : DecidableRel evLE := fun a b => by
  unfold evLE; infer_instance

instance : IsTotal ChainLogEvent evLE :=
  ⟨fun a b => by unfold evLE; omega⟩

instance : IsTrans ChainLogEvent evLE :=
  ⟨fun a b c hab hbc => by unfold evLE at *; omega⟩

/-- The product's events sorted by the log's total order. -/
def sortedEvents (log : List ChainLogEvent) (pid : Nat) :
    List ChainLogEvent :=
  List.insertionSort evLE (productEvents log pid)

/-- `_getStatusName` from the source, on the decoded enum. -/
def getStatusName (st : ProductStatus) : String :=
  match st with
  | ProductStatus.Created => "Created"
  | ProductStatus.Dispatched => "Dispatched"
  | ProductStatus.InTransit => "InTransit"
  | ProductStatus.Received => "Received"
  | ProductStatus.Delivered => "Delivered"
  | ProductStatus.Verified => "Verified"
  | ProductStatus.Exception => "Exception"

/-- Structured `details` of a timeline entry (`_formatEvent`'s per-type
payload). -/
inductive TimelineDetails where
  | createdD (name batchId origin : String) (producer : Address)
  | transferD (prevOwner newOwner : Address)
  | statusD (status : ProductStatus) (statusName note : String)
      (updatedBy : Address)
  | verifiedD (verifier : Address) (certificationHash notes : String)
  deriving DecidableEq, Repr

/-- One formatted timeline entry (`_formatEvent`'s result: base fields
plus type, description and details). -/
structure TimelineEntry where
  blockNumber : Nat
  timestamp : Nat
  type : String
  description : String
  details : TimelineDetails
  deriving DecidableEq, Repr

/-- `_formatEvent`: format one event given its block's timestamp. -/
def formatEvent (e : ChainLogEvent) (blockTimestamp : Nat) : TimelineEntry :=
  match e.payload with
  | EvPayload.createdEv producer name batchId origin =>
      { blockNumber := e.blockNumber, timestamp := blockTimestamp
        type := "Product Created"
        description := "Product registered: " ++ name
        details := TimelineDetails.createdD name batchId origin producer }
  | EvPayload.transferEv prevOwner newOwner =>
      { blockNumber := e.blockNumber, timestamp := blockTimestamp
        type := "Ownership Transferred"
        description := "Product transferred to new owner"
        details := TimelineDetails.transferD prevOwner newOwner }
  | EvPayload.statusEv newStatus note updatedBy =>
      { blockNumber := e.blockNumber, timestamp := blockTimestamp
        type := "Status Updated"
        description := "Status changed to: " ++ getStatusName newStatus
        details := TimelineDetails.statusD newStatus
          (getStatusName newStatus) note updatedBy }
  | EvPayload.verifiedEv verifier certificationHash notes =>
      { blockNumber := e.blockNumber, timestamp := blockTimestamp
        type := "Product Verified"
        description := "Product verified by regulator"
        details := TimelineDetails.verifiedD verifier certificationHash notes }

/-- `getProductHistory(productId)`: the timeline is the product's events in
the log's total order, each formatted with its block's timestamp
(`blockTime` maps a block number to its timestamp, as `provider.getBlock`
does). -/
def getProductHistory (log : List ChainLogEvent) (blockTime : Nat → Nat)
    (pid : Nat) : List TimelineEntry :=
  (sortedEvents log pid).map (fun e => formatEvent e (blockTime e.blockNumber))

/-!
### Reachability

One step is one external call of a mutating entry point with arbitrary
arguments and block environment; failed calls leave the state unchanged,
so taking the post-call state unconditionally is sound.
-/

/-- One external mutating call. -/
inductive Step : ChainState → ChainState → Prop where
  | grant (s : ChainState) (caller : Address) (role : Role)
      (account : Address) :
      Step s (grantSupplyChainRole s caller role account).state
  | register (s : ChainState) (env : Env) (caller : Address)
      (name batchId origin : String) (productionDate : Nat) :
      Step s (registerProduct s env caller name batchId origin
        productionDate).state
  | transferStep (s : ChainState) (env : Env) (caller : Address)
      (productId : Nat) (newOwner : Address) (metadata : String) :
      Step s (transferProduct s env caller productId newOwner metadata).state
  | updateStep (s : ChainState) (env : Env) (caller : Address)
      (productId : Nat) (newStatus : ProductStatus) (notes : String) :
      Step s (updateProductStatus s env caller productId newStatus
        notes).state
  | verifyStep (s : ChainState) (env : Env) (caller : Address)
      (productId : Nat) (certificateHash notes : String) :
      Step s (addVerification s env caller productId certificateHash
        notes).state
  | pauseStep (s : ChainState) (caller : Address) :
      Step s (pauseOp s caller).state
  | unpauseStep (s : ChainState) (caller : Address) :
      Step s (unpauseOp s caller).state

/-- States reachable from a freshly deployed contract by external calls. -/
inductive Reachable : ChainState → Prop where
  | init (deployer : Address) : Reachable (initState deployer)
  | step {s s' : ChainState} : Reachable s → Step s s' → Reachable s'

/-!
### Concrete demo states (used to instantiate the theorems)
-/

def demoEnv : Env := { timestamp := 100, blockNumber := 5 }

/-- Deployer 1 grants Producer to address 2. -/
def demoS1 : ChainState :=
  (grantSupplyChainRole (initState 1) 1 Role.PRODUCER 2).state

/-- Producer 2 registers a product (id 1). -/
def demoS2 : ChainState :=
  (registerProduct demoS1 demoEnv 2 "Coffee" "B1" "Colombia" 50).state

/-- Deployer 1 grants Regulator to address 3. -/
def demoS3 : ChainState :=
  (grantSupplyChainRole demoS2 1 Role.REGULATOR 3).state

/-- Deployer 1 grants Distributor to address 4. -/
def demoS4 : ChainState :=
  (grantSupplyChainRole demoS3 1 Role.DISTRIBUTOR 4).state

/-- Admin 1 pauses the contract right after deployment. -/
def demoPaused : ChainState :=
  (pauseOp (initState 1) 1).state

/-- A paused state that also has a producer (2) and a product (id 1). -/
def demoS4Paused : ChainState :=
  (pauseOp demoS4 1).state

/-- A small concrete event log: two events of product 1 (out of block
order) and one event of product 2. -/
def demoLog : List ChainLogEvent :=
  [{ productId := 1, blockNumber := 10, logIndex := 0
     payload := EvPayload.createdEv 2 "Coffee" "B1" "Colombia" },
   { productId := 2, blockNumber := 11, logIndex := 0
     payload := EvPayload.createdEv 2 "Tea" "B2" "India" },
   { productId := 1, blockNumber := 12, logIndex := 1
     payload := EvPayload.transferEv 2 4 }]

/-- `a` holds at least one of the four supply-chain roles. -/
def SupplyRoleHolder (s : ChainState) (a : Address) : Prop :=
  hasRole s Role.PRODUCER a = true ∨ hasRole s Role.DISTRIBUTOR a = true ∨
  hasRole s Role.RETAILER a = true ∨ hasRole s Role.REGULATOR a = true

/-- The inductive invariant of the contract storage: assigned product ids
are exactly 1..counter, each stored product's id field equals its key,
every supply-chain role holder is a registered participant, and every
stored product's current owner holds Producer, Distributor or Retailer. -/
structure Inv (s : ChainState) : Prop where
  idRange : ∀ id, (s.products id).productId ≠ 0 ↔
    1 ≤ id ∧ id ≤ s.productIdCounter
  idField : ∀ id, (s.products id).productId ≠ 0 →
    (s.products id).productId = id
  roleReg : ∀ a, SupplyRoleHolder s a → s.registeredParticipants a = true
  ownerRole : ∀ id, (s.products id).productId ≠ 0 →
    eligibleRecipient s (s.products id).currentOwner = true

/-!
## Theorems
-/

/-- A role set extension preserves recipient eligibility. -/
theorem eligibleRecipient_mono {s s' : ChainState}
    (hmono : ∀ r x, s.roles r x = true → s'.roles r x = true)
    {a : Address} (h : eligibleRecipient s a = true) :
    eligibleRecipient s' a = true := by
  simp only [eligibleRecipient, hasRole, Bool.or_eq_true] at h ⊢
  rcases h with (h | h) | h
  · exact Or.inl (Or.inl (hmono _ _ h))
  · exact Or.inl (Or.inr (hmono _ _ h))
  · exact Or.inr (hmono _ _ h)

/-- A role set extension preserves supply-role possession. -/
theorem supplyRoleHolder_mono {s s' : ChainState}
    (hmono : ∀ r x, s.roles r x = true → s'.roles r x = true)
    {a : Address} (h : SupplyRoleHolder s a) : SupplyRoleHolder s' a := by
  simp only [SupplyRoleHolder, hasRole] at h ⊢
  rcases h with h | h | h | h
  · exact Or.inl (hmono _ _ h)
  · exact Or.inr (Or.inl (hmono _ _ h))
  · exact Or.inr (Or.inr (Or.inl (hmono _ _ h)))
  · exact Or.inr (Or.inr (Or.inr (hmono _ _ h)))

/-- The constructor establishes the invariant. -/
theorem inv_initState (deployer : Address) : Inv (initState deployer) := by
  constructor
  · intro id
    simp [initState, emptyProduct]
    omega
  · intro id h
    simp [initState, emptyProduct] at h
  · intro a ha
    rcases ha with h | h | h | h <;> simp [initState, hasRole] at h
  · intro id h
    simp [initState, emptyProduct] at h

/-- `grantSupplyChainRole` preserves the invariant. -/
theorem inv_grant (s : ChainState) (caller : Address) (role : Role)
    (account : Address) (h : Inv s) :
    Inv (grantSupplyChainRole s caller role account).state := by
  unfold grantSupplyChainRole
  repeat' split
  · exact h
  · exact h
  · have hmono : ∀ r x, s.roles r x = true →
        (if r = role ∧ x = account then true else s.roles r x) = true := by
      intro r x hx
      split <;> simp [hx]
    constructor
    · intro id
      exact h.idRange id
    · intro id
      exact h.idField id
    · intro a ha
      simp only []
      by_cases hacc : a = account
      · simp [hacc]
      · have ha' : SupplyRoleHolder s a := by
          simp only [SupplyRoleHolder, hasRole] at ha ⊢
          simpa [hacc] using ha
        have := h.roleReg a ha'
        simpa [hacc] using this
    · intro id hid
      exact eligibleRecipient_mono hmono (h.ownerRole id hid)

/-- `registerProduct` preserves the invariant. -/
theorem inv_register (s : ChainState) (env : Env) (caller : Address)
    (name batchId origin : String) (productionDate : Nat) (h : Inv s) :
    Inv (registerProduct s env caller name batchId origin
      productionDate).state := by
  unfold registerProduct
  repeat' split
  · exact h
  · exact h
  · exact h
  · exact h
  · rename_i hrole hpause hname hdate
    have hp : hasRole s Role.PRODUCER caller = true := by
      simpa using hrole
    constructor
    · intro id
      by_cases hid : id = s.productIdCounter + 1
      · subst hid
        simp
      · have := h.idRange id
        simp only [hid]
        simpa [hid] using by
          constructor
          · intro hne
            have := this.mp hne
            omega
          · intro hle
            exact this.mpr ⟨hle.1, by omega⟩
    · intro id
      by_cases hid : id = s.productIdCounter + 1
      · subst hid
        simp
      · simp only [hid]
        simpa [hid] using h.idField id
    · intro a ha
      have ha' : SupplyRoleHolder s a := ha
      exact h.roleReg a ha'
    · intro id
      by_cases hid : id = s.productIdCounter + 1
      · subst hid
        have hp' : s.roles Role.PRODUCER caller = true := hp
        simp [eligibleRecipient, hasRole, hp']
      · simp only [hid]
        intro hne
        have := h.ownerRole id (by simpa [hid] using hne)
        simpa [hid, eligibleRecipient, hasRole] using this

/-- `transferProduct` preserves the invariant. -/
theorem inv_transfer (s : ChainState) (env : Env) (caller : Address)
    (productId : Nat) (newOwner : Address) (metadata : String)
    (h : Inv s) :
    Inv (transferProduct s env caller productId newOwner metadata).state := by
  unfold transferProduct
  repeat' split
  · exact h
  · exact h
  · exact h
  · exact h
  · exact h
  · exact h
  · rename_i hex hown hzero hpause helig hself
    have he : eligibleRecipient s newOwner = true := by
      simpa using helig
    constructor
    · intro id
      by_cases hid : id = productId
      · subst hid
        simpa using h.idRange id
      · simpa [hid] using h.idRange id
    · intro id
      by_cases hid : id = productId
      · subst hid
        simpa using h.idField id
      · simpa [hid] using h.idField id
    · intro a ha
      exact h.roleReg a ha
    · intro id
      by_cases hid : id = productId
      · subst hid
        intro _
        simpa [eligibleRecipient, hasRole] using he
      · intro hne
        have := h.ownerRole id (by simpa [hid] using hne)
        simpa [hid, eligibleRecipient, hasRole] using this

/-- `updateProductStatus` preserves the invariant. -/
theorem inv_update (s : ChainState) (env : Env) (caller : Address)
    (productId : Nat) (newStatus : ProductStatus) (notes : String)
    (h : Inv s) :
    Inv (updateProductStatus s env caller productId newStatus
      notes).state := by
  unfold updateProductStatus
  repeat' split
  · exact h
  · exact h
  · exact h
  · constructor
    · intro id
      by_cases hid : id = productId
      · subst hid
        simpa using h.idRange id
      · simpa [hid] using h.idRange id
    · intro id
      by_cases hid : id = productId
      · subst hid
        simpa using h.idField id
      · simpa [hid] using h.idField id
    · intro a ha
      exact h.roleReg a ha
    · intro id
      by_cases hid : id = productId
      · subst hid
        intro hne
        have := h.ownerRole id (by simpa using hne)
        simpa [eligibleRecipient, hasRole] using this
      · intro hne
        have := h.ownerRole id (by simpa [hid] using hne)
        simpa [hid, eligibleRecipient, hasRole] using this

/-- `addVerification` preserves the invariant. -/
theorem inv_verify (s : ChainState) (env : Env) (caller : Address)
    (productId : Nat) (certificateHash notes : String) (h : Inv s) :
    Inv (addVerification s env caller productId certificateHash
      notes).state := by
  unfold addVerification
  repeat' split
  · exact h
  · exact h
  · exact h
  · exact h
  · constructor
    · intro id
      by_cases hid : id = productId
      · subst hid
        simpa using h.idRange id
      · simpa [hid] using h.idRange id
    · intro id
      by_cases hid : id = productId
      · subst hid
        simpa using h.idField id
      · simpa [hid] using h.idField id
    · intro a ha
      exact h.roleReg a ha
    · intro id
      by_cases hid : id = productId
      · subst hid
        intro hne
        have := h.ownerRole id (by simpa using hne)
        simpa [eligibleRecipient, hasRole] using this
      · intro hne
        have := h.ownerRole id (by simpa [hid] using hne)
        simpa [hid, eligibleRecipient, hasRole] using this

/-- `pause` preserves the invariant. -/
theorem inv_pause (s : ChainState) (caller : Address) (h : Inv s) :
    Inv (pauseOp s caller).state := by
  unfold pauseOp
  repeat' split
  · exact h
  · exact h
  · exact ⟨h.idRange, h.idField, fun a ha => h.roleReg a ha,
      fun id hid => h.ownerRole id hid⟩

/-- `unpause` preserves the invariant. -/
theorem inv_unpause (s : ChainState) (caller : Address) (h : Inv s) :
    Inv (unpauseOp s caller).state := by
  unfold unpauseOp
  repeat' split
  · exact h
  · exact h
  · exact ⟨h.idRange, h.idField, fun a ha => h.roleReg a ha,
      fun id hid => h.ownerRole id hid⟩

/-- The invariant is preserved by every step. -/
theorem inv_step {s s' : ChainState} (h : Inv s) (hs : Step s s') :
    Inv s' := by
  cases hs with
  | grant caller role account => exact inv_grant _ caller role account h
  | register env caller name batchId origin productionDate =>
      exact inv_register _ env caller name batchId origin productionDate h
  | transferStep env caller productId newOwner metadata =>
      exact inv_transfer _ env caller productId newOwner metadata h
  | updateStep env caller productId newStatus notes =>
      exact inv_update _ env caller productId newStatus notes h
  | verifyStep env caller productId certificateHash notes =>
      exact inv_verify _ env caller productId certificateHash notes h
  | pauseStep caller => exact inv_pause _ caller h
  | unpauseStep caller => exact inv_unpause _ caller h

/-- Every reachable state satisfies the invariant. -/
theorem reachable_inv {s : ChainState} (h : Reachable s) : Inv s := by
  induction h with
  | init deployer => exact inv_initState deployer
  | step _ hs ih => exact inv_step ih hs

/-- An existing product survives every step with its id field intact. -/
theorem step_preserves_products {s s' : ChainState} (hinv : Inv s)
    (hs : Step s s') :
    ∀ id, (s.products id).productId ≠ 0 →
      (s'.products id).productId = (s.products id).productId := by
  cases hs with
  | grant caller role account =>
      intro id hid
      unfold grantSupplyChainRole
      repeat' split
      all_goals rfl
  | register env caller name batchId origin productionDate =>
      intro id hid
      have hrange := (hinv.idRange id).mp hid
      unfold registerProduct
      repeat' split
      all_goals try rfl
      have hne : id ≠ s.productIdCounter + 1 := by omega
      simp [hne]
  | transferStep env caller productId newOwner metadata =>
      intro id hid
      unfold transferProduct
      repeat' split
      all_goals try rfl
      by_cases hide : id = productId
      · subst hide
        simp
      · simp [hide]
  | updateStep env caller productId newStatus notes =>
      intro id hid
      unfold updateProductStatus
      repeat' split
      all_goals try rfl
      by_cases hide : id = productId
      · subst hide
        simp
      · simp [hide]
  | verifyStep env caller productId certificateHash notes =>
      intro id hid
      unfold addVerification
      repeat' split
      all_goals try rfl
      by_cases hide : id = productId
      · subst hide
        simp
      · simp [hide]
  | pauseStep caller =>
      intro id hid
      unfold pauseOp
      repeat' split
      all_goals rfl
  | unpauseStep caller =>
      intro id hid
      unfold unpauseOp
      repeat' split
      all_goals rfl

/-- C1: for every caller holding the Producer role, every non-empty name
and every `productionDate ≤ now`, `registerProduct` succeeds when not
paused, allocates id `totalCount + 1`, creates the product with status
`Created` and `currentOwner = caller`, and increases `totalCount()` by
exactly 1; a `productionDate` strictly greater than the current time fails
with `FutureDate`, while equality with the current time succeeds. -/
theorem registerProduct_correct (s : ChainState) (env : Env)
    (caller : Address) (name batchId origin : String) (productionDate : Nat)
    (hrole : hasRole s Role.PRODUCER caller = true)
    (hpause : s.paused = false)
    (hname : name ≠ "") :
    (productionDate ≤ env.timestamp →
      (registerProduct s env caller name batchId origin productionDate).res =
        Except.ok (getTotalProducts s + 1) ∧
      ((registerProduct s env caller name batchId origin
          productionDate).state.products
        (getTotalProducts s + 1)).status = ProductStatus.Created ∧
      ((registerProduct s env caller name batchId origin
          productionDate).state.products
        (getTotalProducts s + 1)).currentOwner = caller ∧
      getTotalProducts (registerProduct s env caller name batchId origin
          productionDate).state = getTotalProducts s + 1) ∧
    (env.timestamp < productionDate →
      (registerProduct s env caller name batchId origin productionDate).res =
        Except.error LedgerError.FutureDate) := by
  constructor
  · intro hle
    have hnot : ¬ env.timestamp < productionDate := by omega
    simp [registerProduct, hrole, hpause, hname, hnot, getTotalProducts]
  · intro hgt
    simp [registerProduct, hrole, hpause, hname, hgt]

/-- Instantiation of `registerProduct_correct`: producer 2 registers with
production date exactly equal to the current time (100) and gets id 1;
with production date 101 > 100 the call fails with `FutureDate`. -/
theorem registerProduct_correct_witness :
    (registerProduct demoS1 demoEnv 2 "Coffee" "B1" "Colombia" 100).res =
      Except.ok 1 ∧
    (registerProduct demoS1 demoEnv 2 "Coffee" "B1" "Colombia" 101).res =
      Except.error LedgerError.FutureDate := by
  have h1 := registerProduct_correct demoS1 demoEnv 2 "Coffee" "B1"
    "Colombia" 100 (by decide) (by decide) (by decide)
  have h2 := registerProduct_correct demoS1 demoEnv 2 "Coffee" "B1"
    "Colombia" 101 (by decide) (by decide) (by decide)
  exact ⟨(h1.1 (by decide)).1, h2.2 (by decide)⟩

/-- C2: for every existing product, every Regulator caller and every
non-empty certificate reference, `addVerification` (on an unpaused state)
succeeds, appends exactly one `Verification` record (the length of the
product's verification list grows by exactly 1) and unconditionally sets
the product's status to `Verified`, whatever status it had before. -/
theorem addVerification_correct (s : ChainState) (env : Env)
    (caller : Address) (productId : Nat) (certificateHash notes : String)
    (hex : productExists s productId = true)
    (hrole : hasRole s Role.REGULATOR caller = true)
    (hcert : certificateHash ≠ "")
    (hpause : s.paused = false) :
    (addVerification s env caller productId certificateHash notes).res =
      Except.ok () ∧
    (addVerification s env caller productId certificateHash
        notes).state.verifications productId =
      s.verifications productId ++
        [{ verifier := caller, timestamp := env.timestamp
           certificateHash := certificateHash, notes := notes }] ∧
    ((addVerification s env caller productId certificateHash
        notes).state.verifications productId).length =
      (s.verifications productId).length + 1 ∧
    ((addVerification s env caller productId certificateHash
        notes).state.products productId).status = ProductStatus.Verified := by
  have hex' : (s.products productId).productId ≠ 0 := by
    simpa [productExists] using hex
  simp [addVerification, hrole, hex', hcert, hpause]

/-- Instantiation of `addVerification_correct`: regulator 3 verifies
product 1, which is currently in status `Created`; the call succeeds, the
verification list grows from 0 to 1 entries and the status becomes
`Verified`. -/
theorem addVerification_correct_witness :
    (demoS3.products 1).status = ProductStatus.Created ∧
    (addVerification demoS3 demoEnv 3 1 "certHash" "ok").res =
      Except.ok () ∧
    ((addVerification demoS3 demoEnv 3 1 "certHash"
        "ok").state.verifications 1).length =
      (demoS3.verifications 1).length + 1 ∧
    ((addVerification demoS3 demoEnv 3 1 "certHash" "ok").state.products
        1).status = ProductStatus.Verified := by
  have h := addVerification_correct demoS3 demoEnv 3 1 "certHash" "ok"
    (by decide) (by decide) (by decide) (by decide)
  exact ⟨by decide, h.1, h.2.2.1, h.2.2.2⟩

/-- C3: `updateProductStatus` authorizes purely by the target status with
the role sets of `_validateStatusUpdatePermission` — Exception: any of
Producer/Distributor/Retailer/Regulator; Created or Dispatched: Producer;
InTransit: Distributor or Producer; Received or Delivered: Retailer or
Distributor; Verified: Regulator — and never inspects the product's
current status: on any unpaused state holding the product (the state, and
hence the prior status, is arbitrary), the call succeeds exactly when the
caller is permitted for the target status, and a caller lacking every
permitted role fails with `Unauthorized`. -/
theorem updateProductStatus_correct (s : ChainState) (env : Env)
    (caller : Address) (productId : Nat) (newStatus : ProductStatus)
    (notes : String)
    (hex : productExists s productId = true)
    (hpause : s.paused = false) :
    ((updateProductStatus s env caller productId newStatus notes).res =
        Except.ok () ↔
      statusUpdatePermitted s caller newStatus = true) ∧
    (statusUpdatePermitted s caller newStatus = false →
      (updateProductStatus s env caller productId newStatus notes).res =
        Except.error LedgerError.Unauthorized) ∧
    (statusUpdatePermitted s caller newStatus = true →
      ((updateProductStatus s env caller productId newStatus
          notes).state.products productId).status = newStatus) ∧
    (newStatus = ProductStatus.Exception →
      (statusUpdatePermitted s caller newStatus = true ↔
        (hasRole s Role.PRODUCER caller = true ∨
         hasRole s Role.DISTRIBUTOR caller = true ∨
         hasRole s Role.RETAILER caller = true ∨
         hasRole s Role.REGULATOR caller = true))) ∧
    ((newStatus = ProductStatus.Created ∨
      newStatus = ProductStatus.Dispatched) →
      (statusUpdatePermitted s caller newStatus = true ↔
        hasRole s Role.PRODUCER caller = true)) ∧
    (newStatus = ProductStatus.InTransit →
      (statusUpdatePermitted s caller newStatus = true ↔
        (hasRole s Role.DISTRIBUTOR caller = true ∨
         hasRole s Role.PRODUCER caller = true))) ∧
    ((newStatus = ProductStatus.Received ∨
      newStatus = ProductStatus.Delivered) →
      (statusUpdatePermitted s caller newStatus = true ↔
        (hasRole s Role.RETAILER caller = true ∨
         hasRole s Role.DISTRIBUTOR caller = true))) ∧
    (newStatus = ProductStatus.Verified →
      (statusUpdatePermitted s caller newStatus = true ↔
        hasRole s Role.REGULATOR caller = true)) := by
  have hex' : (s.products productId).productId ≠ 0 := by
    simpa [productExists] using hex
  refine ⟨?_, ?_, ?_, ?_, ?_, ?_, ?_, ?_⟩
  · by_cases hperm : statusUpdatePermitted s caller newStatus = true
    · simp [updateProductStatus, hex', hpause, hperm]
    · have hperm' : statusUpdatePermitted s caller newStatus = false := by
        simpa using hperm
      simp [updateProductStatus, hex', hpause, hperm']
  · intro hperm'
    simp [updateProductStatus, hex', hpause, hperm']
  · intro hperm
    simp [updateProductStatus, hex', hpause, hperm]
  · rintro rfl
    simp [statusUpdatePermitted, Bool.or_eq_true]
    tauto
  · rintro (rfl | rfl) <;> simp [statusUpdatePermitted]
  · rintro rfl
    simp [statusUpdatePermitted, Bool.or_eq_true]
  · rintro (rfl | rfl) <;> simp [statusUpdatePermitted, Bool.or_eq_true]
  · rintro rfl
    simp [statusUpdatePermitted]

/-- Instantiation of `updateProductStatus_correct`: on `demoS4` (product 1
in status `Created`), distributor 4 may set `InTransit` directly —
skipping `Dispatched` is not rejected — while regulator 3 may not set
`InTransit` and fails with `Unauthorized`. -/
theorem updateProductStatus_correct_witness :
    ((updateProductStatus demoS4 demoEnv 4 1 ProductStatus.InTransit
        "ship").res = Except.ok () ↔
      statusUpdatePermitted demoS4 4 ProductStatus.InTransit = true) ∧
    statusUpdatePermitted demoS4 4 ProductStatus.InTransit = true ∧
    (updateProductStatus demoS4 demoEnv 3 1 ProductStatus.InTransit
        "ship").res = Except.error LedgerError.Unauthorized := by
  have h4 := updateProductStatus_correct demoS4 demoEnv 4 1
    ProductStatus.InTransit "ship" (by decide) (by decide)
  have h3 := updateProductStatus_correct demoS4 demoEnv 3 1
    ProductStatus.InTransit "ship" (by decide) (by decide)
  exact ⟨h4.1, by decide, h3.2.1 (by decide)⟩

/-- C4: `transferProduct` never succeeds when the recipient equals the
caller, and never succeeds when the recipient holds none of
Producer/Distributor/Retailer; in both cases the call returns an error,
the storage is unchanged and no fact is emitted. -/
theorem transferProduct_rejections (s : ChainState) (env : Env)
    (caller : Address) (productId : Nat) (newOwner : Address)
    (metadata : String)
    (h : newOwner = caller ∨
      (hasRole s Role.DISTRIBUTOR newOwner = false ∧
       hasRole s Role.RETAILER newOwner = false ∧
       hasRole s Role.PRODUCER newOwner = false)) :
    (∃ e, (transferProduct s env caller productId newOwner metadata).res =
      Except.error e) ∧
    (transferProduct s env caller productId newOwner metadata).state = s ∧
    (transferProduct s env caller productId newOwner metadata).facts =
      [] := by
  unfold transferProduct
  rcases h with h | ⟨h1, h2, h3⟩ <;>
    · repeat' split
      all_goals simp_all [eligibleRecipient]

/-- Instantiation of `transferProduct_rejections`: on `demoS4`, the
producer-owner 2 cannot transfer product 1 to itself, and cannot transfer
it to address 9 which holds no supply-chain role; both calls error and
leave the state unchanged. -/
theorem transferProduct_rejections_witness :
    ((∃ e, (transferProduct demoS4 demoEnv 2 1 2 "m").res =
        Except.error e) ∧
      (transferProduct demoS4 demoEnv 2 1 2 "m").state = demoS4 ∧
      (transferProduct demoS4 demoEnv 2 1 2 "m").facts = []) ∧
    ((∃ e, (transferProduct demoS4 demoEnv 2 1 9 "m").res =
        Except.error e) ∧
      (transferProduct demoS4 demoEnv 2 1 9 "m").state = demoS4 ∧
      (transferProduct demoS4 demoEnv 2 1 9 "m").facts = []) :=
  ⟨transferProduct_rejections demoS4 demoEnv 2 1 2 "m" (Or.inl rfl),
   transferProduct_rejections demoS4 demoEnv 2 1 9 "m"
     (Or.inr ⟨by decide, by decide, by decide⟩)⟩

/-- C9: a successful `transferProduct` changes only the product's
`currentOwner` (to the recipient) and `lastUpdatedBlock` (to the current
block): its other fields, every other product, the verification lists, the
role sets, the participant registry and the counter are unchanged, the
single emitted fact carries the metadata string verbatim, and the call's
outcome and post-state do not depend on the metadata at all. -/
theorem transferProduct_frame (s : ChainState) (env : Env)
    (caller : Address) (productId : Nat) (newOwner : Address)
    (m m₂ : String)
    (hok : (transferProduct s env caller productId newOwner m).res =
      Except.ok ()) :
    (transferProduct s env caller productId newOwner m).state.products
        productId =
      { s.products productId with
          currentOwner := newOwner, lastUpdatedBlock := env.blockNumber } ∧
    (∀ j, j ≠ productId →
      (transferProduct s env caller productId newOwner m).state.products j =
        s.products j) ∧
    (transferProduct s env caller productId newOwner m).state.verifications =
      s.verifications ∧
    (transferProduct s env caller productId newOwner m).state.roles =
      s.roles ∧
    (transferProduct s env caller productId newOwner
        m).state.registeredParticipants = s.registeredParticipants ∧
    (transferProduct s env caller productId newOwner
        m).state.productIdCounter = s.productIdCounter ∧
    (transferProduct s env caller productId newOwner m).state.paused =
      s.paused ∧
    (transferProduct s env caller productId newOwner m).facts =
      [Fact.OwnershipTransferred productId
        (s.products productId).currentOwner newOwner env.timestamp m] ∧
    (transferProduct s env caller productId newOwner m₂).res =
      (transferProduct s env caller productId newOwner m).res ∧
    (transferProduct s env caller productId newOwner m₂).state =
      (transferProduct s env caller productId newOwner m).state := by
  unfold transferProduct at hok ⊢
  repeat' split
  all_goals simp_all

/-- Instantiation of `transferProduct_frame`: owner 2 transfers product 1
to distributor 4; only the owner and last-updated-block fields change and
the emitted fact carries the metadata verbatim. -/
theorem transferProduct_frame_witness :
    (transferProduct demoS4 demoEnv 2 1 4 "m").state.products 1 =
      { demoS4.products 1 with
          currentOwner := 4, lastUpdatedBlock := demoEnv.blockNumber } ∧
    (transferProduct demoS4 demoEnv 2 1 4 "m").state.roles =
      demoS4.roles ∧
    (transferProduct demoS4 demoEnv 2 1 4 "m").facts =
      [Fact.OwnershipTransferred 1 (demoS4.products 1).currentOwner 4
        demoEnv.timestamp "m"] := by
  have h := transferProduct_frame demoS4 demoEnv 2 1 4 "m" "m2" rfl
  exact ⟨h.1, h.2.2.2.1, h.2.2.2.2.2.2.2.1⟩

/-- C7: every mutating operation is failure-atomic and emits exactly one
fact: on any error outcome the storage is returned unchanged and the
emitted fact list is empty, and on any success the call emits exactly one
fact. -/
theorem mutating_atomic_single_fact (s : ChainState) (env : Env)
    (caller : Address) (role : Role) (account : Address)
    (name batchId origin : String) (productionDate : Nat)
    (productId : Nat) (newOwner : Address) (metadata : String)
    (newStatus : ProductStatus) (notes : String)
    (certificateHash vnotes : String) :
    ((∀ e, (grantSupplyChainRole s caller role account).res =
        Except.error e →
        (grantSupplyChainRole s caller role account).state = s ∧
        (grantSupplyChainRole s caller role account).facts = []) ∧
      ((grantSupplyChainRole s caller role account).res.isOk = true →
        (grantSupplyChainRole s caller role account).facts.length = 1)) ∧
    ((∀ e, (registerProduct s env caller name batchId origin
          productionDate).res = Except.error e →
        (registerProduct s env caller name batchId origin
          productionDate).state = s ∧
        (registerProduct s env caller name batchId origin
          productionDate).facts = []) ∧
      ((registerProduct s env caller name batchId origin
          productionDate).res.isOk = true →
        (registerProduct s env caller name batchId origin
          productionDate).facts.length = 1)) ∧
    ((∀ e, (transferProduct s env caller productId newOwner metadata).res =
        Except.error e →
        (transferProduct s env caller productId newOwner metadata).state =
          s ∧
        (transferProduct s env caller productId newOwner metadata).facts =
          []) ∧
      ((transferProduct s env caller productId newOwner
          metadata).res.isOk = true →
        (transferProduct s env caller productId newOwner
          metadata).facts.length = 1)) ∧
    ((∀ e, (updateProductStatus s env caller productId newStatus
          notes).res = Except.error e →
        (updateProductStatus s env caller productId newStatus notes).state =
          s ∧
        (updateProductStatus s env caller productId newStatus notes).facts =
          []) ∧
      ((updateProductStatus s env caller productId newStatus
          notes).res.isOk = true →
        (updateProductStatus s env caller productId newStatus
          notes).facts.length = 1)) ∧
    ((∀ e, (addVerification s env caller productId certificateHash
          vnotes).res = Except.error e →
        (addVerification s env caller productId certificateHash
          vnotes).state = s ∧
        (addVerification s env caller productId certificateHash
          vnotes).facts = []) ∧
      ((addVerification s env caller productId certificateHash
          vnotes).res.isOk = true →
        (addVerification s env caller productId certificateHash
          vnotes).facts.length = 1)) := by
  refine ⟨⟨?_, ?_⟩, ⟨?_, ?_⟩, ⟨?_, ?_⟩, ⟨?_, ?_⟩, ⟨?_, ?_⟩⟩
  · intro e he
    unfold grantSupplyChainRole at he ⊢
    repeat' split
    all_goals simp_all
  · intro h
    unfold grantSupplyChainRole at h ⊢
    repeat' split
    all_goals simp_all [Except.isOk, Except.toBool]
  · intro e he
    unfold registerProduct at he ⊢
    repeat' split
    all_goals simp_all
  · intro h
    unfold registerProduct at h ⊢
    repeat' split
    all_goals simp_all [Except.isOk, Except.toBool]
  · intro e he
    unfold transferProduct at he ⊢
    repeat' split
    all_goals simp_all
  · intro h
    unfold transferProduct at h ⊢
    repeat' split
    all_goals simp_all [Except.isOk, Except.toBool]
  · intro e he
    unfold updateProductStatus at he ⊢
    repeat' split
    all_goals simp_all
  · intro h
    unfold updateProductStatus at h ⊢
    repeat' split
    all_goals simp_all [Except.isOk, Except.toBool]
  · intro e he
    unfold addVerification at he ⊢
    repeat' split
    all_goals simp_all
  · intro h
    unfold addVerification at h ⊢
    repeat' split
    all_goals simp_all [Except.isOk, Except.toBool]

/-- Instantiation of `mutating_atomic_single_fact`: a role grant by
non-admin 2 fails and leaves state and fact log untouched, while a valid
registration by producer 2 emits exactly one fact. -/
theorem mutating_atomic_single_fact_witness :
    (grantSupplyChainRole demoS1 2 Role.PRODUCER 5).state = demoS1 ∧
    (grantSupplyChainRole demoS1 2 Role.PRODUCER 5).facts = [] ∧
    (registerProduct demoS1 demoEnv 2 "A" "" "" 0).facts.length = 1 := by
  have h := mutating_atomic_single_fact demoS1 demoEnv 2 Role.PRODUCER 5
    "A" "" "" 0 1 4 "m" ProductStatus.Created "n" "c" "v"
  exact ⟨(h.1.1 LedgerError.Unauthorized rfl).1,
    (h.1.1 LedgerError.Unauthorized rfl).2, h.2.1.2 rfl⟩

/-- C8: `getProductHistory` is a pure deterministic function of the event
log: on an unchanged log two calls yield identical sequences; the timeline
is, entry for entry, the product's events sorted by the log's total order
(block number primary, log index secondary) — a permutation of exactly the
product's facts, each formatted once — and a product with no events in the
log yields the empty sequence rather than an error. -/
theorem getProductHistory_correct (log : List ChainLogEvent)
    (blockTime : Nat → Nat) (pid : Nat) :
    getProductHistory log blockTime pid = getProductHistory log blockTime pid ∧
    List.Sorted evLE (sortedEvents log pid) ∧
    (sortedEvents log pid).Perm (productEvents log pid) ∧
    getProductHistory log blockTime pid =
      (sortedEvents log pid).map
        (fun e => formatEvent e (blockTime e.blockNumber)) ∧
    (log.filter (fun e => e.productId == pid) = [] →
      getProductHistory log blockTime pid = []) := by
  refine ⟨rfl, List.sorted_insertionSort evLE _,
    List.perm_insertionSort evLE _, rfl, ?_⟩
  intro hnone
  have hall : ∀ e ∈ log, ¬ (e.productId == pid) = true :=
    List.filter_eq_nil_iff.mp hnone
  have typed : ∀ q : ChainLogEvent → Bool,
      log.filter (fun e => q e && e.productId == pid) = [] := by
    intro q
    apply List.filter_eq_nil_iff.mpr
    intro e he hb
    have hb' : q e = true ∧ (e.productId == pid) = true := by simpa using hb
    exact hall e he hb'.2
  have hpe : productEvents log pid = [] := by
    simp [productEvents, typed]
  simp [getProductHistory, sortedEvents, hpe]

/-- Instantiation of `getProductHistory_correct`: on the demo log, product
5 has no events and its timeline is empty; the timeline of product 1 is
itself (determinism) and its event list is sorted. -/
theorem getProductHistory_correct_witness :
    getProductHistory demoLog (fun _ => 0) 5 = [] ∧
    getProductHistory demoLog (fun _ => 0) 1 =
      getProductHistory demoLog (fun _ => 0) 1 ∧
    List.Sorted evLE (sortedEvents demoLog 1) := by
  have h5 := getProductHistory_correct demoLog (fun _ => 0) 5
  have h1 := getProductHistory_correct demoLog (fun _ => 0) 1
  exact ⟨h5.2.2.2.2 rfl, h1.1, h1.2.1⟩

/-- The demo state with one producer is reachable. -/
theorem demoS1_reachable : Reachable demoS1 :=
  Reachable.step (Reachable.init 1)
    (Step.grant (initState 1) 1 Role.PRODUCER 2)

/-- The demo state with one registered product is reachable. -/
theorem demoS2_reachable : Reachable demoS2 :=
  Reachable.step demoS1_reachable
    (Step.register demoS1 demoEnv 2 "Coffee" "B1" "Colombia" 50)

/-- C5: in every reachable state, every existing product's current owner
is a registered participant holding at least one role, and a product id
once assigned is permanent: after any further step the product still
exists, with the same id field — it is never deleted or reassigned. -/
theorem ledger_owner_invariant (s : ChainState) (h : Reachable s) :
    (∀ id, productExists s id = true →
      s.registeredParticipants ((s.products id).currentOwner) = true ∧
      ∃ r, s.roles r ((s.products id).currentOwner) = true) ∧
    (∀ s', Step s s' → ∀ id, productExists s id = true →
      productExists s' id = true ∧
      (s'.products id).productId = (s.products id).productId) := by
  have hinv := reachable_inv h
  constructor
  · intro id hid
    have hne : (s.products id).productId ≠ 0 := by
      simpa [productExists] using hid
    have howner := hinv.ownerRole id hne
    have hor : s.roles Role.DISTRIBUTOR ((s.products id).currentOwner) =
          true ∨
        s.roles Role.RETAILER ((s.products id).currentOwner) = true ∨
        s.roles Role.PRODUCER ((s.products id).currentOwner) = true := by
      simpa [eligibleRecipient, hasRole, Bool.or_eq_true, or_assoc]
        using howner
    have hsrh : SupplyRoleHolder s ((s.products id).currentOwner) := by
      rcases hor with h1 | h1 | h1
      · exact Or.inr (Or.inl h1)
      · exact Or.inr (Or.inr (Or.inl h1))
      · exact Or.inl h1
    refine ⟨hinv.roleReg _ hsrh, ?_⟩
    rcases hor with h1 | h1 | h1
    exacts [⟨_, h1⟩, ⟨_, h1⟩, ⟨_, h1⟩]
  · intro s' hs id hid
    have hne : (s.products id).productId ≠ 0 := by
      simpa [productExists] using hid
    have hpres := step_preserves_products hinv hs id hne
    have hne' : (s'.products id).productId ≠ 0 := by
      rw [hpres]; exact hne
    exact ⟨by simpa [productExists] using hne', hpres⟩

/-- Instantiation of `ledger_owner_invariant`: in the reachable state
`demoS2`, product 1's owner is registered and holds a role, and after a
further (failed or successful) transfer step the product still exists. -/
theorem ledger_owner_invariant_witness :
    (demoS2.registeredParticipants ((demoS2.products 1).currentOwner) =
        true ∧
      ∃ r, demoS2.roles r ((demoS2.products 1).currentOwner) = true) ∧
    productExists
      (transferProduct demoS2 demoEnv 2 1 9 "m").state 1 = true := by
  have h := ledger_owner_invariant demoS2 demoS2_reachable
  exact ⟨h.1 1 (by decide),
    (h.2 _ (Step.transferStep demoS2 demoEnv 2 1 9 "m") 1 (by decide)).1⟩

/-- C10: in every reachable state, `productExists` holds exactly on the
contiguous id range 1..`getTotalProducts`, id 0 never exists, and every
stored product's id field is non-zero and equal to its key. -/
theorem productExists_iff_idRange (s : ChainState) (h : Reachable s) :
    (∀ id, productExists s id = true ↔
      1 ≤ id ∧ id ≤ getTotalProducts s) ∧
    productExists s 0 = false ∧
    (∀ id, productExists s id = true →
      (s.products id).productId = id ∧ (s.products id).productId ≠ 0) := by
  have hinv := reachable_inv h
  refine ⟨?_, ?_, ?_⟩
  · intro id
    have hiff := hinv.idRange id
    constructor
    · intro hid
      exact hiff.mp (by simpa [productExists] using hid)
    · intro hrange
      simpa [productExists] using hiff.mpr hrange
  · have hno : ¬ (1 ≤ 0 ∧ 0 ≤ s.productIdCounter) := by omega
    have h0 : ¬ (s.products 0).productId ≠ 0 := fun hne =>
      hno ((hinv.idRange 0).mp hne)
    simpa [productExists] using h0
  · intro id hid
    have hne : (s.products id).productId ≠ 0 := by
      simpa [productExists] using hid
    exact ⟨hinv.idField id hne, hne⟩

/-- Instantiation of `productExists_iff_idRange` at the reachable state
`demoS2` (one registered product): id 1 exists and agrees with the range,
id 0 does not exist, and the stored id field at key 1 is 1. -/
theorem productExists_iff_idRange_witness :
    (productExists demoS2 1 = true ↔
      1 ≤ 1 ∧ 1 ≤ getTotalProducts demoS2) ∧
    productExists demoS2 0 = false ∧
    (demoS2.products 1).productId = 1 := by
  have h := productExists_iff_idRange demoS2 demoS2_reachable
  exact ⟨h.1 1, h.2.1, (h.2.2 1 (by decide)).1⟩

/-- C6 counterexample: with the contract paused, `grantSupplyChainRole`
called by the admin SUCCEEDS (the function has no `whenNotPaused`
modifier), so the role-grant operation does not fail with `SystemPaused`
while paused; moreover a paused `registerProduct` by a caller without the
producer role fails with `Unauthorized`, not `SystemPaused` (the role
modifier precedes the pause check). -/
theorem pause_claim_counterexample :
    demoPaused.paused = true ∧
    (grantSupplyChainRole demoPaused 1 Role.PRODUCER 2).res =
      Except.ok () ∧
    (registerProduct demoPaused demoEnv 9 "X" "B" "O" 1).res =
      Except.error LedgerError.Unauthorized :=
  ⟨by decide, rfl, rfl⟩

/-- C6 (amended): while the pause flag is set, the four product-mutating
operations (`registerProduct`, `transferProduct`, `updateProductStatus`,
`addVerification`) always fail and leave the storage unchanged — with
`SystemPaused` whenever the guards preceding their pause check are
satisfied — read operations are unaffected by the pause flag,
`grantSupplyChainRole` is NOT gated by pause and succeeds normally for the
admin, and an admin `unpause` clears the flag, restoring normal
operation. -/
theorem pause_blocks_product_mutations (s : ChainState) (env : Env)
    (caller : Address) (role : Role) (account : Address)
    (name batchId origin : String) (productionDate productId : Nat)
    (newOwner : Address) (metadata : String) (newStatus : ProductStatus)
    (notes certificateHash vnotes : String)
    (hp : s.paused = true) :
    ((∃ e, (registerProduct s env caller name batchId origin
        productionDate).res = Except.error e) ∧
      (registerProduct s env caller name batchId origin
        productionDate).state = s ∧
      (hasRole s Role.PRODUCER caller = true →
        (registerProduct s env caller name batchId origin
          productionDate).res = Except.error LedgerError.SystemPaused)) ∧
    ((∃ e, (transferProduct s env caller productId newOwner metadata).res =
        Except.error e) ∧
      (transferProduct s env caller productId newOwner metadata).state =
        s ∧
      (productExists s productId = true →
        (s.products productId).currentOwner = caller → newOwner ≠ 0 →
        (transferProduct s env caller productId newOwner metadata).res =
          Except.error LedgerError.SystemPaused)) ∧
    ((∃ e, (updateProductStatus s env caller productId newStatus
        notes).res = Except.error e) ∧
      (updateProductStatus s env caller productId newStatus notes).state =
        s ∧
      (productExists s productId = true →
        (updateProductStatus s env caller productId newStatus notes).res =
          Except.error LedgerError.SystemPaused)) ∧
    ((∃ e, (addVerification s env caller productId certificateHash
        vnotes).res = Except.error e) ∧
      (addVerification s env caller productId certificateHash
        vnotes).state = s ∧
      (hasRole s Role.REGULATOR caller = true →
        productExists s productId = true → certificateHash ≠ "" →
        (addVerification s env caller productId certificateHash
          vnotes).res = Except.error LedgerError.SystemPaused)) ∧
    ((hasRole s Role.ADMIN caller = true → account ≠ 0 →
        (grantSupplyChainRole s caller role account).res = Except.ok ()) ∧
      getProduct s productId = getProduct { s with paused := false }
        productId ∧
      getTotalProducts s = getTotalProducts { s with paused := false } ∧
      productExists s productId = productExists { s with paused := false }
        productId ∧
      (hasRole s Role.ADMIN caller = true →
        (unpauseOp s caller).res = Except.ok () ∧
        (unpauseOp s caller).state.paused = false)) := by
  refine ⟨⟨?_, ?_, ?_⟩, ⟨?_, ?_, ?_⟩, ⟨?_, ?_, ?_⟩, ⟨?_, ?_, ?_⟩,
    ?_, rfl, rfl, rfl, ?_⟩
  · unfold registerProduct
    repeat' split
    all_goals exact ⟨_, rfl⟩
  · unfold registerProduct
    repeat' split
    all_goals rfl
  · intro hrole
    simp [registerProduct, hrole, hp]
  · unfold transferProduct
    repeat' split
    all_goals exact ⟨_, rfl⟩
  · unfold transferProduct
    repeat' split
    all_goals rfl
  · intro hex hown hzero
    have hex' : (s.products productId).productId ≠ 0 := by
      simpa [productExists] using hex
    simp [transferProduct, hex', hown, hzero, hp]
  · unfold updateProductStatus
    repeat' split
    all_goals exact ⟨_, rfl⟩
  · unfold updateProductStatus
    repeat' split
    all_goals rfl
  · intro hex
    have hex' : (s.products productId).productId ≠ 0 := by
      simpa [productExists] using hex
    simp [updateProductStatus, hex', hp]
  · unfold addVerification
    repeat' split
    all_goals exact ⟨_, rfl⟩
  · unfold addVerification
    repeat' split
    all_goals rfl
  · intro hrole hex hcert
    have hex' : (s.products productId).productId ≠ 0 := by
      simpa [productExists] using hex
    simp [addVerification, hrole, hex', hcert, hp]
  · intro hadmin hacc
    simp [grantSupplyChainRole, hadmin, hacc]
  · intro hadmin
    constructor
    · simp [unpauseOp, hadmin, hp]
    · simp [unpauseOp, hadmin, hp]

/-- Instantiation of `pause_blocks_product_mutations` at the paused demo
state: producer 2's registration fails with `SystemPaused`, the admin's
role grant succeeds despite the pause, and the admin's unpause clears the
flag. -/
theorem pause_blocks_product_mutations_witness :
    (registerProduct demoS4Paused demoEnv 2 "X" "B" "O" 1).res =
      Except.error LedgerError.SystemPaused ∧
    (grantSupplyChainRole demoS4Paused 1 Role.RETAILER 8).res =
      Except.ok () ∧
    (unpauseOp demoS4Paused 1).state.paused = false := by
  have h2 := pause_blocks_product_mutations demoS4Paused demoEnv 2
    Role.RETAILER 8 "X" "B" "O" 1 1 4 "m" ProductStatus.Created "n" "c"
    "v" (by decide)
  have h1 := pause_blocks_product_mutations demoS4Paused demoEnv 1
    Role.RETAILER 8 "X" "B" "O" 1 1 4 "m" ProductStatus.Created "n" "c"
    "v" (by decide)
  exact ⟨h2.1.2.2 (by decide), h1.2.2.2.2.1 (by decide) (by decide),
    (h1.2.2.2.2.2.2.2.2 (by decide)).2⟩

end SupplyChain
